import Mathlib

/-!
# Verification of the TACS solid constitutive core

A shallow embedding of `TACSSolidConstitutive` (TACSSolidConstitutive.cpp)
and of the default `TACSElementModel::evalPointQuantity`
(src/elements/TACSElementModel.h), together with theorems settling the
spec's claims about the material-law evaluation entry points.

`TacsScalar` is embedded as `ℚ` (exact arithmetic; the C++ code performs
only field operations, so the algebraic identities proved here are the
identities of the source expressions). C output buffers become explicit
function arguments that each method returns, possibly updated; a method
that can mutate instance fields returns the post-state as the first
component of its result, so frame properties are statable.
-/

set_option linter.unusedVariables false

/-- Scalar type used throughout the TACS call graph. -/
abbrev TacsScalar := ℚ

/-- Modelled from the spec: `TACSMaterialProperties` is not under `src/`
(only its call sites are).  The property source is a record of the values
its evaluation routines write: `evalTangentStiffness3D` fills a 21-entry
symmetric tangent, `evalThermalStrain3D` a 6-entry thermal-strain vector,
`evalTangentHeatFlux2D` a 3-entry conduction tangent; `getDensity` and
`getSpecificHeat` return scalars.  The failure criterion is kept abstract:
`vonMisesFailure3D` maps a stress vector to the failure scalar and
`vonMisesStressSens` to its stress-gradient; per the spec the sens routine
returns the same failure value together with the gradient
(`vonMisesFailure3DStressSens` below). -/
structure TACSMaterialProperties where
  density : TacsScalar
  specificHeat : TacsScalar
  tangentStiffness3D : Fin 21 → TacsScalar
  thermalStrain3D : Fin 6 → TacsScalar
  tangentHeatFlux2D : Fin 3 → TacsScalar
  vonMisesFailure3D : (Fin 6 → TacsScalar) → TacsScalar
  vonMisesStressSens : (Fin 6 → TacsScalar) → Fin 6 → TacsScalar

/-- Modelled from the spec: `vonMisesFailure3DStressSens(s, sens)` returns
the failure value at `s` and writes the stress-sensitivity into `sens`. -/
def TACSMaterialProperties.vonMisesFailure3DStressSens
    (props : TACSMaterialProperties) (s : Fin 6 → TacsScalar) :
    TacsScalar × (Fin 6 → TacsScalar) :=
  (props.vonMisesFailure3D s, props.vonMisesStressSens s)

/-- Instance state of `TACSSolidConstitutive`: the optional property
source, the thickness design variable `t`, its global number `tNum`
(negative = not owned) and its bounds. -/
structure TACSSolidConstitutive where
  properties : Option TACSMaterialProperties
  t : TacsScalar
  tNum : ℤ
  tlb : TacsScalar
  tub : TacsScalar

/-- The symmetric 6x6 matrix-vector product written out in
`evalStress` (TACSSolidConstitutive.cpp lines 126-131) over the 21
packed upper-triangular entries `C[0..20]`; the same index pattern is
repeated verbatim in `evalFailure` and `evalFailureStrainSens`. -/
def mulSym21 (C : Fin 21 → TacsScalar) (e : Fin 6 → TacsScalar) :
    Fin 6 → TacsScalar
  | 0 => C 0 * e 0 + C 1 * e 1 + C 2 * e 2 + C 3 * e 3 + C 4 * e 4 + C 5 * e 5
  | 1 => C 1 * e 0 + C 6 * e 1 + C 7 * e 2 + C 8 * e 3 + C 9 * e 4 + C 10 * e 5
  | 2 => C 2 * e 0 + C 7 * e 1 + C 11 * e 2 + C 12 * e 3 + C 13 * e 4 + C 14 * e 5
  | 3 => C 3 * e 0 + C 8 * e 1 + C 12 * e 2 + C 15 * e 3 + C 16 * e 4 + C 17 * e 5
  | 4 => C 4 * e 0 + C 9 * e 1 + C 13 * e 2 + C 16 * e 3 + C 18 * e 4 + C 19 * e 5
  | 5 => C 5 * e 0 + C 10 * e 1 + C 14 * e 2 + C 17 * e 3 + C 19 * e 4 + C 20 * e 5

/-- `getDesignVarNums`: returns the design-variable count; writes
`dvNums[0] = tNum` only when the buffer is present and long enough. -/
def TACSSolidConstitutive.getDesignVarNums (inst : TACSSolidConstitutive)
    (elemIndex : ℤ) (dvLen : ℤ) (dvNums : Option (ℕ → ℤ)) :
    TACSSolidConstitutive × ℤ × Option (ℕ → ℤ) :=
  if 0 ≤ inst.tNum then
    match dvNums with
    | some buf =>
        if 1 ≤ dvLen then (inst, 1, some (Function.update buf 0 inst.tNum))
        else (inst, 1, some buf)
    | none => (inst, 1, none)
  else (inst, 0, dvNums)

/-- `setDesignVars`: sets `t` from `dvs[0]` when the variable is owned and
the array is long enough; the only field write in the class. -/
def TACSSolidConstitutive.setDesignVars (inst : TACSSolidConstitutive)
    (elemIndex : ℤ) (dvLen : ℤ) (dvs : ℕ → TacsScalar) :
    TACSSolidConstitutive :=
  if 0 ≤ inst.tNum ∧ 1 ≤ dvLen then { inst with t := dvs 0 } else inst

/-- `getDesignVars`: writes `dvs[0] = t` under the same guard. -/
def TACSSolidConstitutive.getDesignVars (inst : TACSSolidConstitutive)
    (elemIndex : ℤ) (dvLen : ℤ) (dvs : ℕ → TacsScalar) :
    TACSSolidConstitutive × (ℕ → TacsScalar) :=
  if 0 ≤ inst.tNum ∧ 1 ≤ dvLen then (inst, Function.update dvs 0 inst.t)
  else (inst, dvs)

/-- `getDesignVarRange`: fills `lb[0]`/`ub[0]` when present. -/
def TACSSolidConstitutive.getDesignVarRange (inst : TACSSolidConstitutive)
    (elemIndex : ℤ) (dvLen : ℤ) (lb ub : Option (ℕ → TacsScalar)) :
    TACSSolidConstitutive × Option (ℕ → TacsScalar) × Option (ℕ → TacsScalar) :=
  if 0 ≤ inst.tNum ∧ 1 ≤ dvLen then
    (inst, lb.map (fun b => Function.update b 0 inst.tlb),
      ub.map (fun b => Function.update b 0 inst.tub))
  else (inst, lb, ub)

/-- `evalDensity`: `t * density` with a property source, else `0.0`. -/
def TACSSolidConstitutive.evalDensity (inst : TACSSolidConstitutive)
    (elemIndex : ℤ) (pt : Fin 3 → ℚ) (X : Fin 3 → TacsScalar) :
    TACSSolidConstitutive × TacsScalar :=
  match inst.properties with
  | some props => (inst, inst.t * props.density)
  | none => (inst, 0)

/-- `evalSpecificHeat`: `t * specificHeat` with a property source, else `0.0`. -/
def TACSSolidConstitutive.evalSpecificHeat (inst : TACSSolidConstitutive)
    (elemIndex : ℤ) (pt : Fin 3 → ℚ) (X : Fin 3 → TacsScalar) :
    TACSSolidConstitutive × TacsScalar :=
  match inst.properties with
  | some props => (inst, inst.t * props.specificHeat)
  | none => (inst, 0)

/-- `evalStress`: with a property source, applies the raw (unscaled)
symmetric tangent from `evalTangentStiffness3D` to the strain; without
one, writes all six stress entries to zero.  All six entries of the
output buffer are overwritten on both paths. -/
def TACSSolidConstitutive.evalStress (inst : TACSSolidConstitutive)
    (elemIndex : ℤ) (pt : Fin 3 → ℚ) (X : Fin 3 → TacsScalar)
    (e : Fin 6 → TacsScalar) (s : Fin 6 → TacsScalar) :
    TACSSolidConstitutive × (Fin 6 → TacsScalar) :=
  match inst.properties with
  | some props => (inst, mulSym21 props.tangentStiffness3D e)
  | none => (inst, fun _ => 0)

/-- `evalTangentStiffness`: with a property source, fills all 21 entries
from `evalTangentStiffness3D` and then multiplies only `C[0..5]` by `t`;
without one, zeroes only `C[0..5]`, leaving `C[6..20]` as the caller
provided them. -/
def TACSSolidConstitutive.evalTangentStiffness (inst : TACSSolidConstitutive)
    (elemIndex : ℤ) (pt : Fin 3 → ℚ) (X : Fin 3 → TacsScalar)
    (C : Fin 21 → TacsScalar) :
    TACSSolidConstitutive × (Fin 21 → TacsScalar) :=
  match inst.properties with
  | some props =>
      (inst, fun i =>
        if i.val < 6 then props.tangentStiffness3D i * inst.t
        else props.tangentStiffness3D i)
  | none => (inst, fun i => if i.val < 6 then 0 else C i)

/-- `evalThermalStrain`: with a property source, the thermal-strain vector
scaled by `theta`; without one, all six entries zeroed. -/
def TACSSolidConstitutive.evalThermalStrain (inst : TACSSolidConstitutive)
    (elemIndex : ℤ) (pt : Fin 3 → ℚ) (X : Fin 3 → TacsScalar)
    (theta : TacsScalar) (e : Fin 6 → TacsScalar) :
    TACSSolidConstitutive × (Fin 6 → TacsScalar) :=
  match inst.properties with
  | some props => (inst, fun i => props.thermalStrain3D i * theta)
  | none => (inst, fun _ => 0)

/-- `evalHeatFlux`: with a property source, writes
`flux[0] = C[0]*grad[0] + C[1]*grad[1]` and
`flux[1] = C[1]*grad[1] + C[2]*grad[2]` (the exact source expressions);
without one there is no else-branch, so the flux buffer is returned
untouched. -/
def TACSSolidConstitutive.evalHeatFlux (inst : TACSSolidConstitutive)
    (elemIndex : ℤ) (pt : Fin 3 → ℚ) (X : Fin 3 → TacsScalar)
    (grad : Fin 3 → TacsScalar) (flux : Fin 2 → TacsScalar) :
    TACSSolidConstitutive × (Fin 2 → TacsScalar) :=
  match inst.properties with
  | some props =>
      let C := props.tangentHeatFlux2D
      (inst, fun j =>
        if j.val = 0 then C 0 * grad 0 + C 1 * grad 1
        else C 1 * grad 1 + C 2 * grad 2)
  | none => (inst, flux)

/-- `evalTangentHeatFlux`: in the property branch the source declares a
local `TacsScalar C[3]` that shadows the parameter `C` and lets
`evalTangentHeatFlux2D` write into the local, which is then discarded;
the caller's buffer is never written on either path. -/
def TACSSolidConstitutive.evalTangentHeatFlux (inst : TACSSolidConstitutive)
    (elemIndex : ℤ) (pt : Fin 3 → ℚ) (X : Fin 3 → TacsScalar)
    (C : Fin 3 → TacsScalar) :
    TACSSolidConstitutive × (Fin 3 → TacsScalar) :=
  match inst.properties with
  | some props =>
      let _Clocal : Fin 3 → TacsScalar := props.tangentHeatFlux2D
      (inst, C)
  | none => (inst, C)

/-- `evalFailure`: with a property source, forms the stress through the
raw symmetric tangent (same expressions as `evalStress`) and reduces it
through `vonMisesFailure3D`; else returns `0.0`. -/
def TACSSolidConstitutive.evalFailure (inst : TACSSolidConstitutive)
    (elemIndex : ℤ) (pt : Fin 3 → ℚ) (X : Fin 3 → TacsScalar)
    (e : Fin 6 → TacsScalar) : TACSSolidConstitutive × TacsScalar :=
  match inst.properties with
  | some props =>
      let C := props.tangentStiffness3D
      let s := mulSym21 C e
      (inst, props.vonMisesFailure3D s)
  | none => (inst, 0)

/-- `evalFailureStrainSens`: with a property source, forms the same
stress, calls `vonMisesFailure3DStressSens` for the failure value and the
stress-sensitivity `sens`, and writes `dfde` by applying the same
symmetric tangent expressions to `sens`; else returns `0.0` leaving the
`dfde` buffer untouched. -/
def TACSSolidConstitutive.evalFailureStrainSens (inst : TACSSolidConstitutive)
    (elemIndex : ℤ) (pt : Fin 3 → ℚ) (X : Fin 3 → TacsScalar)
    (e : Fin 6 → TacsScalar) (dfde : Fin 6 → TacsScalar) :
    TACSSolidConstitutive × TacsScalar × (Fin 6 → TacsScalar) :=
  match inst.properties with
  | some props =>
      let C := props.tangentStiffness3D
      let s := mulSym21 C e
      let res := props.vonMisesFailure3DStressSens s
      (inst, res.1, mulSym21 C res.2)
  | none => (inst, 0, dfde)

/-- Default `TACSElementModel::evalPointQuantity`
(src/elements/TACSElementModel.h lines 251-261): body is `return 0;`, so
the length is 0 and the quantity buffer is never written. -/
def TACSElementModel.evalPointQuantity (elemIndex : ℤ) (quantityType : ℤ)
    (time : ℚ) (n : ℤ) (pt : Fin 3 → ℚ) (X : Fin 3 → TacsScalar)
    (Xd : Fin 9 → TacsScalar) (Ut : ℕ → TacsScalar) (Ux : ℕ → TacsScalar)
    (quantity : ℕ → TacsScalar) : ℤ × (ℕ → TacsScalar) :=
  (0, quantity)

/-! ### Concrete evaluation points used by witnesses and counterexamples -/

/-- Property source whose 21 tangent entries, thermal strains, heat-flux
tangent, density and specific heat are all 1; the failure criterion
projects onto the first stress component and its sensitivity is the
identity. -/
def onesProps : TACSMaterialProperties where
  density := 1
  specificHeat := 1
  tangentStiffness3D := fun _ => 1
  thermalStrain3D := fun _ => 1
  tangentHeatFlux2D := fun _ => 1
  vonMisesFailure3D := fun s => s 0
  vonMisesStressSens := fun s => s

/-- Property source with an all-zero tangent. -/
def zeroProps : TACSMaterialProperties where
  density := 0
  specificHeat := 0
  tangentStiffness3D := fun _ => 0
  thermalStrain3D := fun _ => 0
  tangentHeatFlux2D := fun _ => 0
  vonMisesFailure3D := fun s => s 0
  vonMisesStressSens := fun s => s

/-- Property source whose tangent is 1 at packed entry 6 and 0 elsewhere. -/
def unit6Props : TACSMaterialProperties where
  density := 0
  specificHeat := 0
  tangentStiffness3D := fun i => if i = 6 then 1 else 0
  thermalStrain3D := fun _ => 0
  tangentHeatFlux2D := fun _ => 0
  vonMisesFailure3D := fun s => s 0
  vonMisesStressSens := fun s => s

/-- Instance with the all-ones property source and thickness 2. -/
def instT2 : TACSSolidConstitutive := ⟨some onesProps, 2, 0, 0, 4⟩

/-- Instance with the all-ones property source and thickness 1. -/
def instT1 : TACSSolidConstitutive := ⟨some onesProps, 1, 0, 0, 4⟩

/-- Instance with no attached property source. -/
def instNoProps : TACSSolidConstitutive := ⟨none, 1, 0, 0, 4⟩

/-- Instance carrying `zeroProps`. -/
def instZeroProps : TACSSolidConstitutive := ⟨some zeroProps, 1, 0, 0, 4⟩

/-- Instance carrying `unit6Props`. -/
def instUnit6Props : TACSSolidConstitutive := ⟨some unit6Props, 1, 0, 0, 4⟩

/-- Concrete quadrature point. -/
def pt0 : Fin 3 → ℚ := fun _ => 0

/-- Concrete physical position. -/
def X0 : Fin 3 → ℚ := fun _ => 0

/-- All-ones caller buffer for the 21-entry tangent array. -/
def ones21 : Fin 21 → ℚ := fun _ => 1

/-- All-zero 6-entry buffer. -/
def zeros6 : Fin 6 → ℚ := fun _ => 0

/-- Unit strain in the first Voigt component. -/
def eUnit0 : Fin 6 → ℚ := fun i => if i = 0 then 1 else 0

/-- Unit strain in the second Voigt component. -/
def eUnit1 : Fin 6 → ℚ := fun i => if i = 1 then 1 else 0

/-! ### Claim C1 -/

/-- Claim C1 counterexample: with thickness `t = 2` and the all-ones
tangent, applying the matrix returned by `evalTangentStiffness` to the
unit strain gives first stress entry 2, while `evalStress` gives 1; and
with no property source the returned array keeps the caller's entries
6..20, so applying it to a strain need not reproduce the all-zero
`evalStress` result either. -/
theorem stress_tangent_consistency_counterexample :
    (mulSym21 ((instT2.evalTangentStiffness 0 pt0 X0 ones21).2) eUnit0) 0
      ≠ ((instT2.evalStress 0 pt0 X0 eUnit0 zeros6).2) 0
    ∧ (mulSym21 ((instNoProps.evalTangentStiffness 0 pt0 X0 ones21).2) eUnit1) 1
      ≠ ((instNoProps.evalStress 0 pt0 X0 eUnit1 zeros6).2) 1 := by
  constructor <;>
    simp +decide [TACSSolidConstitutive.evalTangentStiffness,
      TACSSolidConstitutive.evalStress, mulSym21, instT2, instNoProps,
      onesProps, eUnit0, eUnit1, ones21]

/-- With thickness 1 the partial scaling is the identity, so the returned
tangent equals the raw property tangent. -/
theorem evalTangentStiffness_unit_t (inst : TACSSolidConstitutive)
    (props : TACSMaterialProperties) (hp : inst.properties = some props)
    (ht : inst.t = 1) (k : ℤ) (pt : Fin 3 → ℚ) (X : Fin 3 → ℚ)
    (Cbuf : Fin 21 → ℚ) :
    (inst.evalTangentStiffness k pt X Cbuf).2 = props.tangentStiffness3D := by
  funext i
  simp [TACSSolidConstitutive.evalTangentStiffness, hp, ht]

/-- Claim C1 (amended): for every instance with an attached property
source whose thickness design variable equals 1, the stress obtained by
applying the matrix returned by `evalTangentStiffness` to a strain `e`
in the documented Voigt ordering equals the stress returned by
`evalStress` on `e`, entry by entry.  (For `t ≠ 1` the two differ, since
`evalStress` applies the unscaled tangent while `evalTangentStiffness`
scales its first six entries by `t`.) -/
theorem stress_tangent_consistency_unit_t (inst : TACSSolidConstitutive)
    (props : TACSMaterialProperties) (hp : inst.properties = some props)
    (ht : inst.t = 1) (k : ℤ) (pt : Fin 3 → ℚ) (X : Fin 3 → ℚ)
    (e : Fin 6 → ℚ) (Cbuf : Fin 21 → ℚ) (sbuf : Fin 6 → ℚ) :
    mulSym21 ((inst.evalTangentStiffness k pt X Cbuf).2) e
      = (inst.evalStress k pt X e sbuf).2 := by
  rw [evalTangentStiffness_unit_t inst props hp ht k pt X Cbuf]
  simp [TACSSolidConstitutive.evalStress, hp]

/-- Witness for claim C1 at a concrete instance with thickness 1. -/
theorem stress_tangent_consistency_unit_t_witness :
    instT1.properties = some onesProps ∧ instT1.t = 1 ∧
    mulSym21 ((instT1.evalTangentStiffness 0 pt0 X0 ones21).2) eUnit0
      = (instT1.evalStress 0 pt0 X0 eUnit0 zeros6).2 :=
  ⟨rfl, rfl,
    stress_tangent_consistency_unit_t instT1 onesProps rfl rfl 0 pt0 X0
      eUnit0 ones21 zeros6⟩

/-! ### Claim C2 -/

/-- Packed tangent entry `i` is observably read by `evalStress`: two
instances whose property sources agree everywhere except at entry `i`
produce different stresses on a common input. -/
def evalStressReads (i : Fin 21) : Prop :=
  ∃ (inst inst' : TACSSolidConstitutive)
    (props props' : TACSMaterialProperties)
    (k : ℤ) (pt : Fin 3 → ℚ) (X : Fin 3 → ℚ) (e sbuf : Fin 6 → ℚ),
    inst.properties = some props ∧ inst'.properties = some props' ∧
    (∀ j : Fin 21, j ≠ i → props.tangentStiffness3D j = props'.tangentStiffness3D j) ∧
    (inst.evalStress k pt X e sbuf).2 ≠ (inst'.evalStress k pt X e sbuf).2

/-- Packed tangent entry `i` is always returned by `evalTangentStiffness`
scaled by the owned thickness design variable. -/
def tangentScaledAt (i : Fin 21) : Prop :=
  ∀ (inst : TACSSolidConstitutive) (props : TACSMaterialProperties)
    (k : ℤ) (pt : Fin 3 → ℚ) (X : Fin 3 → ℚ) (Cbuf : Fin 21 → ℚ),
    inst.properties = some props →
    (inst.evalTangentStiffness k pt X Cbuf).2 i
      = props.tangentStiffness3D i * inst.t

/-- Claim C2 counterexample: entry 6 of the tangent array is read by
`evalStress` (it is the diagonal coefficient of the second stress row),
yet with thickness 2 and an all-ones tangent `evalTangentStiffness`
returns it unscaled: 1 rather than `1 * 2`. -/
theorem tangent_scaling_counterexample :
    evalStressReads 6
    ∧ (instT2.evalTangentStiffness 0 pt0 X0 ones21).2 6
        ≠ onesProps.tangentStiffness3D 6 * instT2.t := by
  constructor
  · refine ⟨instZeroProps, instUnit6Props, zeroProps, unit6Props, 0, pt0, X0,
      eUnit1, zeros6, rfl, rfl, ?_, ?_⟩
    · intro j hj
      simp [zeroProps, unit6Props, hj]
    · intro h
      have h1 := congrFun h 1
      revert h1
      simp +decide [TACSSolidConstitutive.evalStress, instZeroProps,
        instUnit6Props, zeroProps, unit6Props, mulSym21, eUnit1]
  · simp +decide [TACSSolidConstitutive.evalTangentStiffness, instT2, onesProps]

/-- Claim C2 (amended): the entries of the tangent array that
`evalTangentStiffness` returns scaled by the owned thickness design
variable are exactly the first six packed entries (`i < 6`), while
`evalStress` also reads entries beyond the first six (entry 6 in
particular); so callers may not assume that an entry read by
`evalStress` is thickness-scaled. -/
theorem tangent_scaling_partial (i : Fin 21) :
    (tangentScaledAt i ↔ i.val < 6) ∧ evalStressReads 6 := by
  constructor
  · constructor
    · intro hsc
      by_contra hi
      have h := hsc instT2 onesProps 0 pt0 X0 ones21 rfl
      revert h
      norm_num [TACSSolidConstitutive.evalTangentStiffness, instT2, onesProps, hi]
    · intro hi inst props k pt X Cbuf hp
      simp [TACSSolidConstitutive.evalTangentStiffness, hp, hi]
  · refine ⟨instZeroProps, instUnit6Props, zeroProps, unit6Props, 0, pt0, X0,
      eUnit1, zeros6, rfl, rfl, ?_, ?_⟩
    · intro j hj
      simp [zeroProps, unit6Props, hj]
    · intro h
      have h1 := congrFun h 1
      revert h1
      simp +decide [TACSSolidConstitutive.evalStress, instZeroProps,
        instUnit6Props, zeroProps, unit6Props, mulSym21, eUnit1]

/-! ### Claim C3 -/

/-- Claim C3: with no attached property source, `evalStress` writes an
all-zero 6-entry stress vector and `evalDensity` and `evalSpecificHeat`
return `0.0`, for every input; all three are total functions of their
arguments. -/
theorem degraded_mode_zero (inst : TACSSolidConstitutive)
    (hp : inst.properties = none) (k : ℤ) (pt : Fin 3 → ℚ) (X : Fin 3 → ℚ)
    (e sbuf : Fin 6 → ℚ) :
    (inst.evalStress k pt X e sbuf).2 = (fun _ => 0)
    ∧ (inst.evalDensity k pt X).2 = 0
    ∧ (inst.evalSpecificHeat k pt X).2 = 0 := by
  refine ⟨?_, ?_, ?_⟩ <;>
    simp [TACSSolidConstitutive.evalStress, TACSSolidConstitutive.evalDensity,
      TACSSolidConstitutive.evalSpecificHeat, hp]

/-- Witness for claim C3 at the concrete property-less instance. -/
theorem degraded_mode_zero_witness :
    (instNoProps.evalStress 0 pt0 X0 eUnit0 zeros6).2 = (fun _ => 0)
    ∧ (instNoProps.evalDensity 0 pt0 X0).2 = 0
    ∧ (instNoProps.evalSpecificHeat 0 pt0 X0).2 = 0 :=
  degraded_mode_zero instNoProps rfl 0 pt0 X0 eUnit0 zeros6

/-! ### Claim C4 -/

/-- Claim C4: every evaluation entry point of the material law returns
the instance state unchanged (the embedding threads the post-state as the
first component, and it always equals the pre-state), the query entry
points likewise, and `setDesignVars` — the one mutator — changes no field
other than the design variable `t`.  Determinism is inherent: each entry
point is a total function of the instance state and its arguments. -/
theorem eval_entry_points_pure (inst : TACSSolidConstitutive) (k dvLen : ℤ)
    (pt : Fin 3 → ℚ) (X : Fin 3 → ℚ) (e sbuf dfde : Fin 6 → ℚ)
    (theta : ℚ) (grad : Fin 3 → ℚ) (flux : Fin 2 → ℚ) (Cbuf : Fin 21 → ℚ)
    (C3buf : Fin 3 → ℚ) (dvs : ℕ → ℚ) (dvNums : Option (ℕ → ℤ))
    (lb ub : Option (ℕ → ℚ)) :
    (inst.evalDensity k pt X).1 = inst
    ∧ (inst.evalSpecificHeat k pt X).1 = inst
    ∧ (inst.evalStress k pt X e sbuf).1 = inst
    ∧ (inst.evalTangentStiffness k pt X Cbuf).1 = inst
    ∧ (inst.evalThermalStrain k pt X theta e).1 = inst
    ∧ (inst.evalHeatFlux k pt X grad flux).1 = inst
    ∧ (inst.evalTangentHeatFlux k pt X C3buf).1 = inst
    ∧ (inst.evalFailure k pt X e).1 = inst
    ∧ (inst.evalFailureStrainSens k pt X e dfde).1 = inst
    ∧ (inst.getDesignVarNums k dvLen dvNums).1 = inst
    ∧ (inst.getDesignVars k dvLen dvs).1 = inst
    ∧ (inst.getDesignVarRange k dvLen lb ub).1 = inst
    ∧ (inst.setDesignVars k dvLen dvs).properties = inst.properties
    ∧ (inst.setDesignVars k dvLen dvs).tNum = inst.tNum
    ∧ (inst.setDesignVars k dvLen dvs).tlb = inst.tlb
    ∧ (inst.setDesignVars k dvLen dvs).tub = inst.tub := by
  refine ⟨?_, ?_, ?_, ?_, ?_, ?_, ?_, ?_, ?_, ?_, ?_, ?_, ?_, ?_, ?_, ?_⟩ <;>
    first
      | (cases hprop : inst.properties <;>
          simp [TACSSolidConstitutive.evalDensity,
            TACSSolidConstitutive.evalSpecificHeat,
            TACSSolidConstitutive.evalStress,
            TACSSolidConstitutive.evalTangentStiffness,
            TACSSolidConstitutive.evalThermalStrain,
            TACSSolidConstitutive.evalHeatFlux,
            TACSSolidConstitutive.evalTangentHeatFlux,
            TACSSolidConstitutive.evalFailure,
            TACSSolidConstitutive.evalFailureStrainSens, hprop])
      | (simp only [TACSSolidConstitutive.getDesignVarNums,
            TACSSolidConstitutive.getDesignVars,
            TACSSolidConstitutive.getDesignVarRange,
            TACSSolidConstitutive.setDesignVars]
         repeat' split
         all_goals rfl)

/-! ### Claim C5 -/

/-- Euclidean inner product on 6-entry Voigt vectors. -/
def dot6 (a b : Fin 6 → TacsScalar) : TacsScalar :=
  a 0 * b 0 + a 1 * b 1 + a 2 * b 2 + a 3 * b 3 + a 4 * b 4 + a 5 * b 5

/-- The packed 21-entry tangent acts as a self-adjoint (symmetric)
linear map on Voigt vectors. -/
theorem mulSym21_selfAdjoint (C : Fin 21 → TacsScalar) (x y : Fin 6 → TacsScalar) :
    dot6 (mulSym21 C x) y = dot6 x (mulSym21 C y) := by
  simp only [dot6, mulSym21]
  ring

/-- Claim C5: with an attached property source, `evalFailureStrainSens`
returns the same failure scalar as `evalFailure` on the same strain, and
fills `dfde` by applying the same symmetric tangent-stiffness map to the
failure criterion's stress-sensitivity evaluated at the stress
`s = C·e` — the analytic chain rule for the linear stress map, witnessed
by the adjoint identity `dfde·d = sens·(C·d)` for every direction `d`
(no finite difference is involved: the expressions are exact). -/
theorem failure_strain_sens_chain_rule (inst : TACSSolidConstitutive)
    (props : TACSMaterialProperties) (hp : inst.properties = some props)
    (k : ℤ) (pt : Fin 3 → ℚ) (X : Fin 3 → ℚ) (e dfde d : Fin 6 → ℚ) :
    (inst.evalFailureStrainSens k pt X e dfde).2.1
        = (inst.evalFailure k pt X e).2
    ∧ (inst.evalFailureStrainSens k pt X e dfde).2.2
        = mulSym21 props.tangentStiffness3D
            (props.vonMisesStressSens (mulSym21 props.tangentStiffness3D e))
    ∧ dot6 ((inst.evalFailureStrainSens k pt X e dfde).2.2) d
        = dot6 (props.vonMisesStressSens (mulSym21 props.tangentStiffness3D e))
            (mulSym21 props.tangentStiffness3D d) := by
  refine ⟨?_, ?_, ?_⟩
  · simp [TACSSolidConstitutive.evalFailureStrainSens,
      TACSSolidConstitutive.evalFailure,
      TACSMaterialProperties.vonMisesFailure3DStressSens, hp]
  · simp [TACSSolidConstitutive.evalFailureStrainSens,
      TACSMaterialProperties.vonMisesFailure3DStressSens, hp]
  · simp only [TACSSolidConstitutive.evalFailureStrainSens,
      TACSMaterialProperties.vonMisesFailure3DStressSens, hp]
    exact mulSym21_selfAdjoint props.tangentStiffness3D
      (props.vonMisesStressSens (mulSym21 props.tangentStiffness3D e)) d

/-- Witness for claim C5 at a concrete instance. -/
theorem failure_strain_sens_chain_rule_witness :
    instT1.properties = some onesProps
    ∧ ((instT1.evalFailureStrainSens 0 pt0 X0 eUnit0 zeros6).2.1
          = (instT1.evalFailure 0 pt0 X0 eUnit0).2
        ∧ (instT1.evalFailureStrainSens 0 pt0 X0 eUnit0 zeros6).2.2
            = mulSym21 onesProps.tangentStiffness3D
                (onesProps.vonMisesStressSens
                  (mulSym21 onesProps.tangentStiffness3D eUnit0))
        ∧ dot6 ((instT1.evalFailureStrainSens 0 pt0 X0 eUnit0 zeros6).2.2) eUnit1
            = dot6 (onesProps.vonMisesStressSens
                  (mulSym21 onesProps.tangentStiffness3D eUnit0))
                (mulSym21 onesProps.tangentStiffness3D eUnit1)) :=
  ⟨rfl, failure_strain_sens_chain_rule instT1 onesProps rfl 0 pt0 X0
    eUnit0 zeros6 eUnit1⟩

/-! ### Claim C6 -/

/-- Claim C6: on an instance that owns its design variable, writing `v`
through `setDesignVars` (array length at least 1, first entry `v`) and
reading back through `getDesignVars` (length at least 1) returns exactly
`v` whenever `v` lies within `[tlb, tub]`; `setDesignVars` stores the
value unclamped, so the round trip is exact. -/
theorem design_var_round_trip (inst : TACSSolidConstitutive)
    (hown : 0 ≤ inst.tNum) (v : ℚ) (hlb : inst.tlb ≤ v) (hub : v ≤ inst.tub)
    (k k2 dvLen dvLen2 : ℤ) (hlen : 1 ≤ dvLen) (hlen2 : 1 ≤ dvLen2)
    (dvs out : ℕ → ℚ) (hv : dvs 0 = v) :
    ((inst.setDesignVars k dvLen dvs).getDesignVars k2 dvLen2 out).2 0 = v := by
  simp [TACSSolidConstitutive.setDesignVars, TACSSolidConstitutive.getDesignVars,
    hown, hlen, hlen2, hv]

/-- Witness for claim C6: store 3 into an instance with bounds [0, 4]. -/
theorem design_var_round_trip_witness :
    ((instNoProps.setDesignVars 0 1 (fun _ => 3)).getDesignVars 0 1
      (fun _ => 0)).2 0 = 3 :=
  design_var_round_trip instNoProps (by norm_num [instNoProps]) 3
    (by norm_num [instNoProps]) (by norm_num [instNoProps]) 0 0 1 1
    (by norm_num) (by norm_num) (fun _ => 3) (fun _ => 0) rfl

/-! ### Claim C7 -/

/-- Claim C7: whenever the output buffer is absent or shorter than one
entry, `getDesignVarNums` is a pure size query: it returns the owned
design-variable count (1 when `tNum >= 0`, else 0) and the buffer comes
back exactly as supplied — no write happens. -/
theorem size_only_design_var_query (inst : TACSSolidConstitutive)
    (k dvLen : ℤ) (dvNums : Option (ℕ → ℤ))
    (h : dvNums = none ∨ dvLen < 1) :
    (inst.getDesignVarNums k dvLen dvNums).2.1
        = (if 0 ≤ inst.tNum then 1 else 0)
    ∧ (inst.getDesignVarNums k dvLen dvNums).2.2 = dvNums := by
  cases dvNums with
  | none =>
      by_cases ht : 0 ≤ inst.tNum <;>
        simp [TACSSolidConstitutive.getDesignVarNums, ht]
  | some buf =>
      have hlen : ¬ 1 ≤ dvLen := by
        rcases h with h | h
        · simp at h
        · omega
      by_cases ht : 0 ≤ inst.tNum <;>
        simp [TACSSolidConstitutive.getDesignVarNums, ht, hlen]

/-- Witness for claim C7: `dvLen = 0` and a null buffer on an instance
owning one design variable. -/
theorem size_only_design_var_query_witness :
    (instNoProps.getDesignVarNums 0 0 none).2.1
        = (if 0 ≤ instNoProps.tNum then 1 else 0)
    ∧ (instNoProps.getDesignVarNums 0 0 none).2.2 = none :=
  size_only_design_var_query instNoProps 0 0 none (Or.inl rfl)

/-! ### Claim C8 -/

/-- Claim C8: the default `TACSElementModel::evalPointQuantity` returns
length 0 and leaves the quantity buffer exactly as supplied, for every
element index, quantity type, time, quadrature point, position and state
input; it is a total function, not an error path. -/
theorem default_point_quantity_noop (elemIndex quantityType : ℤ)
    (time : ℚ) (n : ℤ) (pt : Fin 3 → ℚ) (X : Fin 3 → ℚ) (Xd : Fin 9 → ℚ)
    (Ut Ux quantity : ℕ → ℚ) :
    TACSElementModel.evalPointQuantity elemIndex quantityType time n pt X
        Xd Ut Ux quantity = (0, quantity) :=
  rfl

/-! ### Claim C9 -/

/-- Claim C9: `evalTangentHeatFlux` returns the caller-supplied output
array unmodified on every path — in the property branch the source
shadows the parameter with a local array and writes only the local — so
callers receive no tangent heat-flux values from this entry point. -/
theorem tangent_heat_flux_output_untouched (inst : TACSSolidConstitutive)
    (k : ℤ) (pt : Fin 3 → ℚ) (X : Fin 3 → ℚ) (C : Fin 3 → ℚ) :
    (inst.evalTangentHeatFlux k pt X C).2 = C := by
  cases hprop : inst.properties <;>
    simp [TACSSolidConstitutive.evalTangentHeatFlux, hprop]

/-! ### Claim C10 -/

/-- Claim C10: with no attached property source, `evalHeatFlux` returns
the flux buffer exactly as supplied (there is no else-branch), while
`evalThermalStrain` zero-fills its output — the degraded-mode zero
fallback does not extend to the heat-flux evaluation. -/
theorem heat_flux_no_degraded_fallback (inst : TACSSolidConstitutive)
    (hp : inst.properties = none) (k : ℤ) (pt : Fin 3 → ℚ) (X : Fin 3 → ℚ)
    (grad : Fin 3 → ℚ) (flux : Fin 2 → ℚ) (theta : ℚ) (e : Fin 6 → ℚ) :
    (inst.evalHeatFlux k pt X grad flux).2 = flux
    ∧ (inst.evalThermalStrain k pt X theta e).2 = (fun _ => 0) := by
  constructor <;>
    simp [TACSSolidConstitutive.evalHeatFlux,
      TACSSolidConstitutive.evalThermalStrain, hp]

/-- Witness for claim C10: an all-ones flux buffer comes back all-ones
(not zero-filled) on the property-less instance. -/
theorem heat_flux_no_degraded_fallback_witness :
    (instNoProps.evalHeatFlux 0 pt0 X0 pt0 (fun _ => 1)).2 = (fun _ => 1)
    ∧ (instNoProps.evalThermalStrain 0 pt0 X0 1 eUnit0).2 = (fun _ => 0) :=
  heat_flux_no_degraded_fallback instNoProps rfl 0 pt0 X0 pt0
    (fun _ => 1) 1 eUnit0
